import Mathlib

/-!
Shallow embedding of the e2e_playwright test scripts and demo apps of this
repository (st_pydeck_chart_select.py, st_pydeck_chart_select_test.py,
st_pills_test.py, st_map_test.py), together with models of the harness
components the spec describes (Run Synchronizer, Element Locator, Visual
Snapshot Comparator) for the parts of the repository that are not present
under src/ (the conftest helpers, the pills demo app, the widget runtime).
Definitions are taken from the source where it exists; definitions whose doc
comment starts with "Modelled from the spec:" embed behavior of repository
code that is only referenced from src/.
-/

/-- The hexagon data rows of the pydeck demo app
(st_pydeck_chart_select.py, H3_HEX_DATA): pairs of hex id and count. -/
def H3_HEX_DATA : List (String × Nat) :=
  [("88283082b9fffff", 10), ("88283082d7fffff", 50), ("88283082a9fffff", 100)]

/-- A pixel position passed to a click action, as in
click(position = ...) in the test scripts. -/
structure ClickPos where
  x : Nat
  y : Nat
  deriving DecidableEq, Repr

/-- Modelled from the spec: the deck.gl picking of the rendered geo layer is
not under src/; the test comments in st_pydeck_chart_select_test.py pin the
observable mapping of the three fixed coordinates used by the scenarios:
(344, 201) picks the count-10 row (row index 0), (417, 229) picks the
count-100 row (row index 2), and (0, 0) hits empty space. -/
def pickAt (p : ClickPos) : Option Nat :=
  if p = ⟨344, 201⟩ then some 0
  else if p = ⟨417, 229⟩ then some 2
  else none

/-- Modelled from the spec: the selection-state transition of the pydeck chart
widget (on_select="rerun"): a plain click replaces the selection with the
picked row, a shift-modified click appends the picked row (multi-select), and
any click on empty space clears the selection. -/
def selectStep (sel : List Nat) (p : ClickPos) (shift : Bool) : List Nat :=
  match pickAt p with
  | none => []
  | some i => if shift then sel ++ [i] else [i]

/-- Modelled from the spec: how the JSON viewer used by st.write renders a
list — each entry shown as its array position, a colon, and the value, with
no whitespace between entries, which is how the tests match the text
(for example the literal "[0:01:2]" asserted in
st_pydeck_chart_select_test.py line 76). -/
def renderNatList (xs : List Nat) : String :=
  "[" ++ String.join (((List.range xs.length).zip xs).map
    (fun pv => toString pv.1 ++ ":" ++ toString pv.2)) ++ "]"

/-- The full rendered text of the indices entry of the selection state, as the
tests locate it with get_by_text. -/
def renderedIndicesText (xs : List Nat) : String :=
  "\"indices\":" ++ renderNatList xs

/-- The sequence of numbers a reader sees inside the rendered indices list:
the array positions interleaved with the selected row indices. -/
def displayedNumbers (xs : List Nat) : List Nat :=
  ((List.range xs.length).zip xs).flatMap (fun pv => [pv.1, pv.2])

/-- The objects payload of the selection state: the data rows at the selected
indices, looked up in H3_HEX_DATA. -/
def objectsOf (sel : List Nat) : List (String × Nat) :=
  sel.filterMap (fun i => H3_HEX_DATA.get? i)

/-- Selection after the first click of the scenario: a plain click at
(344, 201), on the hex that has count 10
(st_pydeck_chart_select_test.py line 48). -/
def selAfterFirstClick : List Nat := selectStep [] ⟨344, 201⟩ false

/-- Selection after the second click: a shift-modified click at (417, 229),
on the hex that has count 100 (st_pydeck_chart_select_test.py line 60). -/
def selAfterSecondClick : List Nat := selectStep selAfterFirstClick ⟨417, 229⟩ true

/-- Selection after the third click: a click on empty space at (0, 0)
(st_pydeck_chart_select_test.py line 79). -/
def selAfterEmptyClick : List Nat := selectStep selAfterSecondClick ⟨0, 0⟩ false

/-- Modelled from the spec: the labels of the multi-select pills group of the
pills demo app (referenced by st_pills_test.py but not under src/); the
scenario uses the Text and Graphs pills. -/
def textPillLabel : String := "📝 Text"

/-- Modelled from the spec: the Graphs pill label of the multi-select group. -/
def graphsPillLabel : String := "🪢 Graphs"

/-- Modelled from the spec: clicking a pill of a multi-select group toggles
exactly that item — when absent it is appended (so the reported selection
lists items in click order), when present it is removed. -/
def toggleMulti (sel : List String) (item : String) : List String :=
  if item ∈ sel then sel.filter (fun s => s ≠ item) else sel ++ [item]

/-- Modelled from the spec: the icon-only pills group is single-select and its
reported value is the index of the selected option (zoom_out_map is option 3,
zoom_in is option 1, per the markdown the test asserts); clicking an option
selects it, and clicking the already-selected option clears the selection. -/
def toggleSingle (sel : Option Nat) (i : Nat) : Option Nat :=
  if sel = some i then none else some i

/-- Modelled from the spec: the default selection the pills demo app passes to
the multi-select group while the "Set default values" checkbox is on, as the
markdown asserted in st_pills_test.py lines 106-108 reports it. -/
def defaultMultiSelection : List String := ["🧰 General widgets", "📊 Charts", "🧊 3D"]

/-- Modelled from the spec: the reported value of the defaults-driven
multi-select as a function of the checkbox state — the fixed default list
when the checkbox is set, none otherwise. -/
def multiValueFor (checkboxOn : Bool) : Option (List String) :=
  if checkboxOn then some defaultMultiSelection else none

/-- A checkbox click flips the checkbox state. -/
def toggleCheckbox (b : Bool) : Bool := !b

/-- How a wait in a test script synchronizes: bounded polling of a readiness
condition, or an unconditional fixed sleep. -/
inductive WaitKind where
  | pollBounded
  | fixedSleep
  deriving DecidableEq, Repr

/-- Why the script waits there, per the comment next to the wait in the
source. -/
inductive WaitPurpose where
  | elementAttach
  | assetLoading
  | reRenderDelay
  | unmountRemount
  | appRunSync
  deriving DecidableEq, Repr

/-- One synchronization wait of a scenario script: where it is in the source,
how it waits, why, an explicit budget or sleep length in milliseconds when
the source passes one (none when it relies on the collaborator default), and
an optional minimum-elapsed-time floor. -/
structure WaitStep where
  file : String
  line : Nat
  kind : WaitKind
  purpose : WaitPurpose
  millis : Option Nat
  minFloorMillis : Option Nat
  deriving DecidableEq, Repr

/-- Every synchronization wait of the scenario scripts and of the pydeck demo
app, enumerated from the source: the attach-expectations with an explicit
enlarged timeout, the visibility readiness checks, the wait_for_timeout fixed
sleeps, the wait_for_app_run / wait_for_app_loaded stabilization calls, and
the time.sleep in the demo app body. -/
def scenarioWaits : List WaitStep := [
  -- st_pydeck_chart_select_test.py, interactions scenario
  ⟨"st_pydeck_chart_select_test.py", 33, .pollBounded, .elementAttach, some 15000, none⟩,
  ⟨"st_pydeck_chart_select_test.py", 37, .fixedSleep, .assetLoading, some 10000, none⟩,
  ⟨"st_pydeck_chart_select_test.py", 40, .pollBounded, .elementAttach, none, none⟩,
  -- st_pydeck_chart_select_test.py, consistent-visuals scenario
  ⟨"st_pydeck_chart_select_test.py", 98, .pollBounded, .elementAttach, some 15000, none⟩,
  ⟨"st_pydeck_chart_select_test.py", 102, .fixedSleep, .assetLoading, some 10000, none⟩,
  ⟨"st_pydeck_chart_select_test.py", 105, .pollBounded, .elementAttach, none, none⟩,
  ⟨"st_pydeck_chart_select_test.py", 121, .fixedSleep, .reRenderDelay, some 1000, none⟩,
  ⟨"st_pydeck_chart_select_test.py", 136, .fixedSleep, .reRenderDelay, some 1000, none⟩,
  ⟨"st_pydeck_chart_select_test.py", 151, .fixedSleep, .reRenderDelay, some 1000, none⟩,
  -- st_pydeck_chart_select_test.py, unmount scenario
  ⟨"st_pydeck_chart_select_test.py", 175, .pollBounded, .elementAttach, some 15000, none⟩,
  ⟨"st_pydeck_chart_select_test.py", 179, .fixedSleep, .assetLoading, some 10000, none⟩,
  ⟨"st_pydeck_chart_select_test.py", 182, .pollBounded, .elementAttach, none, none⟩,
  ⟨"st_pydeck_chart_select_test.py", 198, .fixedSleep, .reRenderDelay, some 1000, none⟩,
  ⟨"st_pydeck_chart_select_test.py", 205, .fixedSleep, .reRenderDelay, some 1000, none⟩,
  ⟨"st_pydeck_chart_select_test.py", 212, .pollBounded, .elementAttach, some 15000, none⟩,
  ⟨"st_pydeck_chart_select_test.py", 216, .fixedSleep, .assetLoading, some 10000, none⟩,
  -- st_pydeck_chart_select.py, the demo app body: time.sleep(1) inside the
  -- unmount-button branch, needed for the component to unmount at all
  ⟨"st_pydeck_chart_select.py", 34, .fixedSleep, .unmountRemount, some 1000, none⟩,
  -- st_pills_test.py
  ⟨"st_pills_test.py", 43, .pollBounded, .appRunSync, none, none⟩,
  ⟨"st_pills_test.py", 46, .pollBounded, .appRunSync, none, none⟩,
  ⟨"st_pills_test.py", 52, .pollBounded, .appRunSync, none, none⟩,
  ⟨"st_pills_test.py", 60, .pollBounded, .appRunSync, none, none⟩,
  ⟨"st_pills_test.py", 92, .pollBounded, .appRunSync, none, none⟩,
  ⟨"st_pills_test.py", 105, .pollBounded, .appRunSync, none, none⟩,
  ⟨"st_pills_test.py", 112, .pollBounded, .appRunSync, none, none⟩,
  -- st_map_test.py, after the dark-theme navigation
  ⟨"st_map_test.py", 44, .pollBounded, .appRunSync, none, none⟩,
  ⟨"st_map_test.py", 45, .pollBounded, .appRunSync, none, some 10000⟩]

/-- The wait at st_pydeck_chart_select_test.py line 37: an unconditional
10-second sleep for the map assets to load, right after the chart attached. -/
def mapAssetsWait : WaitStep :=
  ⟨"st_pydeck_chart_select_test.py", 37, .fixedSleep, .assetLoading, some 10000, none⟩

/-- A purpose for which the collaborator exposes no deterministic
ready-signal, so the source falls back to a fixed sleep there: asset loading
after attach, the DeckGL re-render delay before a snapshot, and the
unmount/remount timing of the component. -/
def lacksReadySignal : WaitPurpose → Bool
  | .assetLoading => true
  | .reRenderDelay => true
  | .unmountRemount => true
  | _ => false

/-- A wait follows the discipline of the amended claim: it either polls a
readiness condition under a bounded budget, or it is a fixed sleep used only
where no deterministic ready-signal exists. -/
def waitDisciplined (w : WaitStep) : Bool :=
  match w.kind with
  | .pollBounded => true
  | .fixedSleep => lacksReadySignal w.purpose

/-- An on-page DOM element, reduced to the attributes the map test observes:
its test id and the theme it is rendered under. -/
structure PageEl where
  testId : String
  theme : String
  deriving DecidableEq, Repr

/-- The current rendered state of the page: the elements in DOM order. -/
structure PageState where
  elements : List PageEl
  deriving DecidableEq, Repr

/-- Modelled from the spec: an Element Reference is pure query data — a test
id to match — holding no captured elements and no page state, so it can only
be evaluated against the state current at consumption time. -/
structure LocatorQ where
  byTestId : String
  deriving DecidableEq, Repr

/-- Modelled from the spec: resolving a reference evaluates its query against
the current page state, returning the matching elements in DOM order. -/
def resolve (q : LocatorQ) (s : PageState) : List PageEl :=
  s.elements.filter (fun e => e.testId == q.byTestId)

/-- The page of the st_map demo app under a given theme: seven map charts and
two caption containers, the counts st_map_test.py asserts. -/
def mapTestPage (theme : String) : PageState :=
  ⟨((List.range 7).map (fun _ => ⟨"stDeckGlJsonChart", theme⟩)) ++
    [⟨"stCaptionContainer", theme⟩, ⟨"stCaptionContainer", theme⟩]⟩

/-- The map-chart locator created at the top of test_displays_maps_properly,
before the navigation to the dark-theme URL. -/
def mapChartsLoc : LocatorQ := ⟨"stDeckGlJsonChart"⟩

/-- The outcome of a stabilization wait. -/
inductive StabResult where
  | stable
  | stabilizationTimeout
  deriving DecidableEq, Repr

/-- Modelled from the spec: awaitStable of the Run Synchronizer (the
wait_for_app_run helper, not under src/) polls the running indicator once per
tick up to a bounded budget of ticks; it reports stable as soon as a poll
observes the indicator cleared, and exceeding the budget is a hard
StabilizationTimeout, never a silent pass. -/
def awaitStable (running : Nat → Bool) (budget : Nat) : StabResult :=
  if (List.range budget).any (fun t => !(running t)) then
    StabResult.stable
  else
    StabResult.stabilizationTimeout

/-- What a visual snapshot call captures: a whole located element, or a
cropped sub-region of a composite widget given by a child of the located
element (the child selector and its ordinal under the parent). -/
inductive SnapTarget where
  | fullElement (selector : String) (nth : Nat)
  | croppedChild (parentTestId : String) (parentNth : Nat)
      (childSelector : String) (childNth : Nat)
  deriving DecidableEq, Repr

/-- One assert_snapshot call: the baseline scenario name it is keyed by and
the region it captures. -/
structure SnapshotCall where
  scenarioName : String
  target : SnapTarget
  deriving DecidableEq, Repr

/-- The assert_snapshot calls of st_map_test.py: each compares only the first
canvas child nested under the nth map chart, a cropped sub-region of the
composite widget. -/
def stMapSnapshotCalls : List SnapshotCall := [
  ⟨"st_map-basic", .croppedChild "stDeckGlJsonChart" 5 "canvas" 0⟩,
  ⟨"st_map-complex", .croppedChild "stDeckGlJsonChart" 6 "canvas" 0⟩,
  ⟨"st_map-basic_dark", .croppedChild "stDeckGlJsonChart" 5 "canvas" 0⟩,
  ⟨"st_map-complex_dark", .croppedChild "stDeckGlJsonChart" 6 "canvas" 0⟩]

/-- One scenario (test function) and the browser engines its marker skips. -/
structure TestScenario where
  testName : String
  file : String
  skipBrowsers : List String
  deriving DecidableEq, Repr

/-- The geo-chart scenarios of this program: the three test functions of
st_pydeck_chart_select_test.py, each carrying the
pytest.mark.skip_browser("firefox") marker from its source. -/
def geoChartScenarios : List TestScenario := [
  ⟨"test_pydeck_chart_multiselect_interactions_and_return_values",
    "st_pydeck_chart_select_test.py", ["firefox"]⟩,
  ⟨"test_pydeck_chart_multiselect_has_consistent_visuals",
    "st_pydeck_chart_select_test.py", ["firefox"]⟩,
  ⟨"test_pydeck_chart_selection_state_remains_after_unmounting",
    "st_pydeck_chart_select_test.py", ["firefox"]⟩]

/-- Whether a snapshot call captures a cropped sub-region rather than the
whole located element. -/
def isCropped : SnapTarget → Bool
  | .croppedChild _ _ _ _ => true
  | .fullElement _ _ => false

/-- Modelled from the spec: a snapshot comparison passes exactly when the
pixel difference between the captured region and the stored baseline is
within the configured tolerance. -/
def snapshotPasses (diff tol : Nat) : Bool := diff ≤ tol

/-- Modelled from the spec: the pass/fail outcome of one run of a scenario —
its (deterministic) assertions and its snapshot comparisons all pass; against
an unchanged app and unchanged baseline each capture differs from the
baseline only by that run's render jitter, one jitter value per snapshot
step. -/
def scenarioOutcome (assertsPass : Bool) (jitters : List Nat) (tol : Nat) : Bool :=
  assertsPass && jitters.all (fun j => snapshotPasses j tol)

/-- The session-visible state of the pydeck demo app: the selection stored in
the session under the widget key "managed_multiselect_map", and how many
extra "Another element" lines the unmount-button branch has written. -/
structure PydeckAppState where
  sessionSelection : List Nat
  extraElements : Nat
  deriving DecidableEq, Repr

/-- A user action of the unmount scenario: a click on the chart (possibly
shift-modified), or a click on the "Create some elements to unmount
component" button. -/
inductive ChartAction where
  | chartClick (p : ClickPos) (shift : Bool)
  | unmountButtonClick
  deriving DecidableEq, Repr

/-- Modelled from the spec: one rerun of the pydeck demo app after an action.
A chart click updates the keyed selection; the button click makes the app
write three extra elements, which unmounts and remounts the chart component,
while the selection keyed as "managed_multiselect_map" persists in the
session across the rerun. -/
def appStep : PydeckAppState → ChartAction → PydeckAppState
  | s, .chartClick p shift => ⟨selectStep s.sessionSelection p shift, s.extraElements⟩
  | s, .unmountButtonClick => ⟨s.sessionSelection, 3⟩

/-- Running a sequence of actions from a starting app state. -/
def runActions (s : PydeckAppState) (acts : List ChartAction) : PydeckAppState :=
  acts.foldl appStep s

/-- The action trace of the unmount scenario: the single-point click, the
shift-modified multi-select click, then the unmount button. -/
def unmountScenarioTrace : List ChartAction :=
  [.chartClick ⟨344, 201⟩ false, .chartClick ⟨417, 229⟩ true, .unmountButtonClick]

/-- C1: in the geo-chart selection scenario, after the plain click that picks
the count-10 row and the shift-modified click that picks the count-100 row,
the indices entry of the reported selection state reads "[0:0]" and then
"[0:01:2]" (the numbers on display being 0,0 and then 0,0,1,2: array position
0 holding row index 0, then additionally array position 1 holding row index
2), the underlying selected rows being row 0 and then rows 0 and 2; the
subsequent click on empty space at (0, 0) resets both the objects list and
the indices list to empty. -/
theorem pydeck_select_scenario_indices :
    selAfterFirstClick = [0] ∧
    renderedIndicesText selAfterFirstClick = "\"indices\":[0:0]" ∧
    displayedNumbers selAfterFirstClick = [0, 0] ∧
    selAfterSecondClick = [0, 2] ∧
    renderedIndicesText selAfterSecondClick = "\"indices\":[0:01:2]" ∧
    displayedNumbers selAfterSecondClick = [0, 0, 1, 2] ∧
    selAfterEmptyClick = [] ∧
    objectsOf selAfterEmptyClick = [] ∧
    renderNatList selAfterEmptyClick = "[]" := by
  refine ⟨rfl, rfl, rfl, rfl, rfl, rfl, rfl, rfl, rfl⟩

/-- C2: in the multi-select pill group, clicking the Text pill and then the
Graphs pill yields the union of the two in click order, and clicking the
already-selected Graphs pill once more removes exactly that item, leaving
only the Text pill selected. -/
theorem pills_multiselect_union_and_removal :
    toggleMulti (toggleMulti [] textPillLabel) graphsPillLabel =
      [textPillLabel, graphsPillLabel] ∧
    toggleMulti [textPillLabel, graphsPillLabel] graphsPillLabel =
      [textPillLabel] := by
  refine ⟨by decide, by decide⟩

/-- C3: clicking the single-select icon pill zoom_out_map (option index 3)
once moves the reported value from none to 3, and clicking it a second time
returns the control to its unselected state (none). -/
theorem pills_single_select_double_click_clears :
    toggleSingle none 3 = some 3 ∧
    toggleSingle (toggleSingle none 3) 3 = none := by
  refine ⟨by decide, by decide⟩

/-- C4: toggling the "Set default values" checkbox twice, starting unset,
moves the reported multi-select value through the round trip
none → the fixed three-item default list → none. -/
theorem pills_default_checkbox_round_trip :
    multiValueFor false = none ∧
    multiValueFor (toggleCheckbox false) = some defaultMultiSelection ∧
    multiValueFor (toggleCheckbox (toggleCheckbox false)) = none := by
  refine ⟨rfl, rfl, rfl⟩

/-- C5 counterexample: the wait at st_pydeck_chart_select_test.py line 37 is a
fixed 10-second sleep among the scenario waits whose purpose is map-asset
loading, not the unmount/remount delay of the target app — so fixed sleeps
are not confined to the unmount/remount delay. -/
theorem fixed_sleep_beyond_unmount_delay :
    mapAssetsWait ∈ scenarioWaits ∧
    mapAssetsWait.kind = WaitKind.fixedSleep ∧
    mapAssetsWait.purpose ≠ WaitPurpose.unmountRemount := by
  refine ⟨by decide, rfl, by decide⟩

/-- C5 amended: every synchronization wait of every scenario either polls a
readiness condition under a bounded budget, or is a fixed sleep used only
where the collaborator exposes no deterministic ready-signal — the map-asset
loading after chart attach, the DeckGL re-render delay before a snapshot, or
the component unmount/remount delay. -/
theorem waits_poll_based_or_no_ready_signal_sleep :
    scenarioWaits.all waitDisciplined = true := by
  decide

/-- C6: an Element Reference is lazy and re-resolvable, not a snapshot — the
map-chart locator is pure query data, and resolving it after the navigation
to the dark-theme page yields the seven chart elements of the current
(dark) page, which differ from what the same reference resolves to on the
pre-navigation (light) page. -/
theorem locator_reresolves_after_navigation :
    resolve mapChartsLoc (mapTestPage "dark") =
      (List.range 7).map (fun _ => ⟨"stDeckGlJsonChart", "dark"⟩) ∧
    (resolve mapChartsLoc (mapTestPage "dark")).length = 7 ∧
    resolve mapChartsLoc (mapTestPage "dark") ≠
      resolve mapChartsLoc (mapTestPage "light") := by
  refine ⟨by decide, by decide, by decide⟩

/-- C7: a stabilization wait whose running indicator never clears within the
configured budget always reports stabilizationTimeout, never a silent
stable pass. -/
theorem await_stable_times_out_hard (running : Nat → Bool) (budget : Nat)
    (h : ∀ t < budget, running t = true) :
    awaitStable running budget = StabResult.stabilizationTimeout := by
  unfold awaitStable
  have hany : (List.range budget).any (fun t => !(running t)) = false := by
    rw [List.any_eq_false]
    intro t ht
    rw [List.mem_range] at ht
    simp [h t ht]
  rw [hany]
  rfl

/-- C7 witness: with an indicator that stays set forever and a budget of five
polls, the wait reports stabilizationTimeout. -/
theorem await_stable_times_out_hard_witness :
    awaitStable (fun _ => true) 5 = StabResult.stabilizationTimeout :=
  await_stable_times_out_hard (fun _ => true) 5 (fun _ _ => rfl)

/-- C8: the Visual Snapshot Comparator is used on cropped sub-regions — the
st_map scenario compares only the first canvas child nested under a map
chart — and every geo-chart scenario of st_pydeck_chart_select_test.py
carries the explicit skip marker for the firefox browser engine. -/
theorem snapshot_crop_and_skip_browser :
    (⟨"st_map-basic", SnapTarget.croppedChild "stDeckGlJsonChart" 5 "canvas" 0⟩ :
        SnapshotCall) ∈ stMapSnapshotCalls ∧
    stMapSnapshotCalls.all (fun c => isCropped c.target) = true ∧
    geoChartScenarios.all (fun s => s.skipBrowsers.contains "firefox") = true ∧
    geoChartScenarios.length = 3 := by
  refine ⟨by decide, by decide, by decide, rfl⟩

/-- C9: replaying the same action sequence against an unchanged app and an
unchanged baseline is deterministic modulo the pixel-tolerance threshold —
two runs whose snapshot captures each differ from the baseline only by
render jitter within the tolerance produce the same pass/fail outcome. -/
theorem replay_outcome_deterministic (assertsPass : Bool) (tol : Nat)
    (j1 j2 : List Nat) (h1 : ∀ j ∈ j1, j ≤ tol) (h2 : ∀ j ∈ j2, j ≤ tol) :
    scenarioOutcome assertsPass j1 tol = scenarioOutcome assertsPass j2 tol := by
  unfold scenarioOutcome snapshotPasses
  have e1 : j1.all (fun j => decide (j ≤ tol)) = true := by
    rw [List.all_eq_true]
    intro j hj
    exact decide_eq_true (h1 j hj)
  have e2 : j2.all (fun j => decide (j ≤ tol)) = true := by
    rw [List.all_eq_true]
    intro j hj
    exact decide_eq_true (h2 j hj)
  rw [e1, e2]

/-- C9 witness: two concrete replays with different within-tolerance jitter
per snapshot step yield the same outcome. -/
theorem replay_outcome_deterministic_witness :
    scenarioOutcome true [0, 3] 10 = scenarioOutcome true [5, 1] 10 :=
  replay_outcome_deterministic true 10 [0, 3] [5, 1] (by decide) (by decide)

/-- C10: the unmount-button action never changes the keyed selection of any
app state, and along the concrete scenario trace — single-point click,
shift-modified multi-select click, then the unmount button — the final state
keeps the post-selection rows 0 and 2 while the three extra elements were
written, so the re-rendered chart draws the same selection as before the
unmount/remount. -/
theorem selection_survives_unmount :
    (∀ s : PydeckAppState,
      (appStep s ChartAction.unmountButtonClick).sessionSelection =
        s.sessionSelection) ∧
    runActions ⟨[], 0⟩ unmountScenarioTrace = ⟨[0, 2], 3⟩ ∧
    (runActions ⟨[], 0⟩ unmountScenarioTrace).sessionSelection =
      (runActions ⟨[], 0⟩ (unmountScenarioTrace.take 2)).sessionSelection ∧
    objectsOf (runActions ⟨[], 0⟩ unmountScenarioTrace).sessionSelection =
      [("88283082b9fffff", 10), ("88283082a9fffff", 100)] := by
  refine ⟨fun s => rfl, by decide, by decide, by decide⟩
